import Mathlib

/-
Verification of the llamaindexchat repository (src/ingest_knowledge.py and
src/app.py) against its natural-language specification.

Modelling conventions:
- Python dict fields that may be absent are `Option`s; `os.getenv` results are
  `Option String`.
- Python exceptions are `Except String` values; a step that mutates state and
  may raise returns the mutated state together with the `Except` outcome, since
  a raise does not roll back prior mutations.
- Python floats are modelled as rationals; `"{:.3f}".format` is modelled as
  exact rounding (half up) to three decimal places, and `str` of such a float
  as the shortest decimal rendering (trailing zeros stripped, at least one
  fractional digit), matching CPython repr on the non-tie inputs that occur.
- External collaborators (the GitHub fetcher, the node chunker, the
  embedding/index construction, the chat engine) are parameters of the
  functions that call them; the repository code is what is embedded.
-/

/- Normalization of path separators, as performed by the replace call on the
filename metadata value in app.py get_metadata: every backslash character
becomes a forward slash. -/
def normalizeSep (s : String) : String :=
  String.mk (s.data.map (fun c => if c = '\\' then '/' else c))

/- Half-up rounding of q to an integer count of thousandths; models the value
computed by formatting a float with three decimals. Written with Int.fdiv on
the reduced numerator and denominator so that it evaluates by kernel
reduction; the theorem round1000_spec below proves it equal to the standard
rounding function round (q * 1000). -/
def round1000 (q : ℚ) : ℤ :=
  Int.fdiv (q.num * 2000 + (q.den : ℤ)) ((q.den : ℤ) * 2)

/- Models `float("{:.3f}".format(x))` from app.py get_metadata: the value
rounded to three decimal places. -/
def round3 (q : ℚ) : ℚ :=
  Rat.divInt (round1000 q) 1000

/- Models CPython `str` of a float that is a multiple of 1/1000: sign, integer
part, a dot, and the fractional digits with trailing zeros stripped (but at
least one digit). -/
def scoreToString (q : ℚ) : String :=
  let n : ℤ := round1000 q
  let sign := if n < 0 then "-" else ""
  let m : ℕ := n.natAbs
  let ip : ℕ := m / 1000
  let d1 : ℕ := m / 100 % 10
  let d2 : ℕ := m / 10 % 10
  let d3 : ℕ := m % 10
  let frac :=
    if d3 ≠ 0 then toString d1 ++ toString d2 ++ toString d3
    else if d2 ≠ 0 then toString d1 ++ toString d2
    else toString d1
  sign ++ toString ip ++ "." ++ frac

/- Models Python str() of the author value stored in the sources dict: a
missing author is the value None, rendered as "None" by the f-string. -/
def authorStr : Option String → String
  | none => "None"
  | some a => a

namespace Ingest

/- The process environment as seen by os.getenv: each variable is either
absent or present with a string value. -/
structure Env where
  openai_api_key : Option String
  github_token : Option String
deriving DecidableEq

/- Python truthiness test `not x` on an os.getenv result: true when the
variable is unset or set to the empty string. -/
def falsy : Option String → Bool
  | none => true
  | some s => s.isEmpty

/- The dict returned by load_environment_vars on success. -/
structure EnvVars where
  OPENAI_API_KEY : String
  GITHUB_TOKEN : String
deriving DecidableEq

/- ingest_knowledge.py load_environment_vars: reads OPENAI_API_KEY and
GITHUB_TOKEN, raises EnvironmentError when either is falsy, otherwise returns
the dict of both values. -/
def load_environment_vars (env : Env) : Except String EnvVars :=
  let api_key := env.openai_api_key
  let github_token := env.github_token
  if falsy api_key then
    Except.error ("OPENAI_API_KEY environment variable not set.")
  else if falsy github_token then
    Except.error ("GITHUB_TOKEN environment variable not set.")
  else
    Except.ok { OPENAI_API_KEY := api_key.getD (""), GITHUB_TOKEN := github_token.getD ("") }

/- A document as returned by loader.load_data in ingest_knowledge.py, before
the tagging loop: its extra_info carries the collaborator-reported file path. -/
structure RawDoc where
  file_name : String
  text : String
deriving DecidableEq

/- The metadata dict with a filename and an author key; fields are Options
because app.py reads them with dict.get, which yields None when absent. -/
structure Metadata where
  filename : Option String
  author : Option String
deriving DecidableEq

/- A Document after the tagging loop of load_data. -/
structure Doc where
  file_name : String
  text : String
  metadata : Metadata
deriving DecidableEq

/- ingest_knowledge.py load_data (lines 64-73): for each fetched document,
sets the metadata dict with filename taken from the file_name entry of the
extra_info reported by the fetcher, stored verbatim, and author set to the
fixed label LlamaIndex. -/
def load_data (docs : List RawDoc) : List Doc :=
  docs.map (fun doc =>
    { file_name := doc.file_name, text := doc.text,
      metadata := { filename := some doc.file_name, author := some ("LlamaIndex") } })

/- A node (chunk) produced by the parser; its content is opaque to the
repository code. -/
structure Node where
  text : String
  metadata : Metadata
deriving DecidableEq

/- The in-memory index built from nodes; its structure is opaque to the
repository code, which only builds and persists it. -/
structure VectorStoreIndex where
  nodes : List Node
deriving DecidableEq

/- llama_index SimpleNodeParser configuration as used by index_data. -/
structure SimpleNodeParser where
  chunk_size : ℕ
  chunk_overlap : ℕ
deriving DecidableEq

/- SimpleNodeParser.from_defaults(chunk_size=..., chunk_overlap=...). -/
def SimpleNodeParser.from_defaults (chunk_size chunk_overlap : ℕ) : SimpleNodeParser :=
  { chunk_size := chunk_size, chunk_overlap := chunk_overlap }

/- parser.get_nodes_from_documents(docs): the chunking itself is the external
collaborator `chunker`, invoked with the parser configuration on each
document in order. -/
def SimpleNodeParser.get_nodes_from_documents (np : SimpleNodeParser)
    (chunker : SimpleNodeParser → Doc → List Node) (docs : List Doc) : List Node :=
  docs.flatMap (chunker np)

/- One recorded invocation of the chunker: which parser configuration was
applied to which document. -/
structure ChunkCall where
  cfg : SimpleNodeParser
  doc : Doc
deriving DecidableEq

/- Outcome of one run of index_data: the returned value or the propagated
exception, the content of the persistence path ./storage after the run, and
the trace of chunker invocations made. -/
structure IngestResult where
  result : Except String VectorStoreIndex
  storage : Option VectorStoreIndex
  chunk_calls : List ChunkCall

/- ingest_knowledge.py index_data (lines 75-89): builds the parser with
chunk_size=1024 and chunk_overlap=32, parses the documents into nodes,
builds the index (the embedding calls happen inside VectorStoreIndex(nodes),
modelled by the fallible collaborator `buildIndex`), and only then persists
it to ./storage. `storage` is the prior content of the persistence path; an
exception from buildIndex propagates before the persist line runs. -/
def index_data (chunker : SimpleNodeParser → Doc → List Node)
    (buildIndex : List Node → Except String VectorStoreIndex)
    (docs : List Doc) (storage : Option VectorStoreIndex) : IngestResult :=
  let np := SimpleNodeParser.from_defaults 1024 32
  let nodes := np.get_nodes_from_documents chunker docs
  let calls := docs.map (fun d => { cfg := np, doc := d : ChunkCall })
  let rs : Except String VectorStoreIndex × Option VectorStoreIndex :=
    match buildIndex nodes with
    | Except.error e => (Except.error e, storage)
    | Except.ok index => (Except.ok index, some index)
  { result := rs.1, storage := rs.2, chunk_calls := calls }

/- Outcome of one run of the script entry point: how many remote GitHub
fetches were issued, the final outcome, and the persistence path content. -/
structure MainTrace where
  remote_calls : ℕ
  outcome : Except String Unit
  storage : Option VectorStoreIndex

/- The __main__ block of ingest_knowledge.py: load_environment_vars first;
only on success is the GitHub loader used (loader.load_data, the remote
call, modelled by `fetch`), after which the documents are tagged and
indexed. -/
def ingest_main (env : Env) (fetch : Except String (List RawDoc))
    (chunker : SimpleNodeParser → Doc → List Node)
    (buildIndex : List Node → Except String VectorStoreIndex)
    (storage : Option VectorStoreIndex) : MainTrace :=
  match load_environment_vars env with
  | Except.error e => { remote_calls := 0, outcome := Except.error e, storage := storage }
  | Except.ok _ =>
      match fetch with
      | Except.error e => { remote_calls := 1, outcome := Except.error e, storage := storage }
      | Except.ok raw =>
          let docs := load_data raw
          let r := index_data chunker buildIndex docs storage
          { remote_calls := 1,
            outcome := Except.map (fun _ => ()) r.result,
            storage := r.storage }

end Ingest

namespace App

/- A retrieved source node as seen by app.py: it may lack the metadata
attribute entirely (hasattr check), and when present the metadata dict may
lack keys; the similarity score is a float, modelled as a rational. -/
structure SourceNode where
  metadata : Option Ingest.Metadata
  score : ℚ
deriving DecidableEq

/- A chat engine response: the answer text and the source nodes. -/
structure Response where
  response : String
  source_nodes : List SourceNode
deriving DecidableEq

/- One entry of the list built by get_metadata: a dict with filename, author
and score keys. The author value may be the Python value None, but the key
itself is always present. -/
structure SourceEntry where
  filename : String
  author : Option String
  score : ℚ
deriving DecidableEq

/- The loop body of get_metadata over response.source_nodes, in order. An
item without a metadata attribute is skipped. For an item with metadata, the
replace call chained onto the dict.get for the filename raises an
AttributeError when the filename key is absent, because None has no replace
method; a missing author key simply stores None. -/
def get_metadata_loop : List SourceNode → Except String (List SourceEntry)
  | [] => Except.ok []
  | item :: rest =>
      match item.metadata with
      | none => get_metadata_loop rest
      | some md =>
          match md.filename with
          | none =>
              Except.error ("AttributeError: \x27NoneType\x27 object has no attribute \x27replace\x27")
          | some fn =>
              Except.map
                (fun tl =>
                  { filename := normalizeSep fn, author := md.author,
                    score := round3 item.score : SourceEntry } :: tl)
                (get_metadata_loop rest)

/- app.py get_metadata (lines 108-119). -/
def get_metadata (r : Response) : Except String (List SourceEntry) :=
  get_metadata_loop r.source_nodes

/- The base URL hard-coded in format_sources. -/
def base : String :=
  "https://github.com/jerryjliu/llama_index/tree/main/"

/- The f-string of format_sources applied to one sources entry. -/
def sourceLine (s : SourceEntry) : String :=
  "- " ++ base ++ s.filename ++ " (author: \x27" ++ authorStr s.author ++
    "\x27; score: " ++ scoreToString s.score ++ ")\n"

/- app.py format_sources (lines 102-105): "\n".join over the entries
returned by get_metadata; an exception from get_metadata propagates. -/
def format_sources (r : Response) : Except String String :=
  Except.map (fun sources => String.intercalate ("\n") (sources.map sourceLine))
    (get_metadata r)

/- One chat message dict; the sources key is present only on assistant
messages produced from a response. -/
structure Message where
  role : String
  content : String
  sources : Option String
deriving DecidableEq

/- The streamlit session state fields used by app.py. -/
structure SessionState where
  llm_prompt_tokens : ℕ
  llm_completion_tokens : ℕ
  messages : List Message
  btn_llama_index : Bool
  btn_retriever : Bool
  btn_diff : Bool
  btn_rag : Bool
  with_cache : Bool
  with_sources : Bool
  openai_api_key : Option String
deriving DecidableEq

/- The greeting message installed by clear_chat_history (and by the initial
session setup in layout). -/
def greeting : Message :=
  { role := "assistant", content := "Try one of the sample questions or ask your own!",
    sources := none }

/- app.py clear_chat_history (lines 61-70): reset messages to the greeting
and set the four question-button flags to False (False means the button is
rendered enabled, since the disabled argument of each button is the flag). -/
def clear_chat_history (s : SessionState) : SessionState :=
  { s with
    messages := [greeting],
    btn_llama_index := false,
    btn_retriever := false,
    btn_diff := false,
    btn_rag := false }

/- The llama_index TokenCountingHandler state observed by app.py: two
non-negative running counts, with a reset_counts method. -/
structure TokenCountingHandler where
  prompt_llm_token_count : ℕ
  completion_llm_token_count : ℕ
deriving DecidableEq

/- TokenCountingHandler.reset_counts(). -/
def TokenCountingHandler.reset_counts (_ : TokenCountingHandler) : TokenCountingHandler :=
  { prompt_llm_token_count := 0, completion_llm_token_count := 0 }

/- app.py update_token_counters (lines 122-129): add the handler counts to
the session totals, then reset the handler so a later cached answer is not
double counted. -/
def update_token_counters (s : SessionState) (t : TokenCountingHandler) :
    SessionState × TokenCountingHandler :=
  ({ s with
      llm_prompt_tokens := s.llm_prompt_tokens + t.prompt_llm_token_count,
      llm_completion_tokens := s.llm_completion_tokens + t.completion_llm_token_count },
   t.reset_counts)

/- The chat engine collaborator: chat may raise; a successful call reports
token usage to the callback handler, modelled by the two cost functions. -/
structure ChatEngine where
  chat : String → Except String Response
  prompt_cost : String → ℕ
  completion_cost : String → ℕ

/- One actual invocation of chat_engine.chat(prompt): on success the
callback handler accumulates the prompt and completion token counts. -/
def chat_call (engine : ChatEngine) (prompt : String) (t : TokenCountingHandler) :
    Except String Response × TokenCountingHandler :=
  match engine.chat prompt with
  | Except.ok r =>
      (Except.ok r,
       { prompt_llm_token_count := t.prompt_llm_token_count + engine.prompt_cost prompt,
         completion_llm_token_count := t.completion_llm_token_count + engine.completion_cost prompt })
  | Except.error e => (Except.error e, t)

/- Lookup in the st.cache_data store of query_chatengine_cache by exact
prompt string: the store is keyed by the prompt only, because the
underscore-prefixed _chat_engine argument is excluded from hashing. -/
def cacheLookup : List (String × Response) → String → Option Response
  | [], _ => none
  | (p, r) :: rest, prompt => if p = prompt then some r else cacheLookup rest prompt

/- app.py query_chatengine (lines 97-99): always invoke the engine. -/
def query_chatengine (prompt : String) (engine : ChatEngine) (t : TokenCountingHandler) :
    Except String Response × TokenCountingHandler :=
  chat_call engine prompt t

/- app.py query_chatengine_cache (lines 91-94) under st.cache_data: a hit
returns the stored response without invoking the engine (so the handler is
untouched); a miss invokes the engine and stores a successful result
(exceptions are not cached). -/
def query_chatengine_cache (cache : List (String × Response)) (prompt : String)
    (engine : ChatEngine) (t : TokenCountingHandler) :
    Except String Response × List (String × Response) × TokenCountingHandler :=
  match cacheLookup cache prompt with
  | some r => (Except.ok r, cache, t)
  | none =>
      match chat_call engine prompt t with
      | (Except.ok r, t1) => (Except.ok r, (prompt, r) :: cache, t1)
      | (Except.error e, t1) => (Except.error e, cache, t1)

/- The mutable state touched by the response-generation path of app.py: the
session state, the token counting handler, and the st.cache_data store. -/
structure AppState where
  session : SessionState
  handler : TokenCountingHandler
  cache : List (String × Response)

/- app.py generate_assistant_response (lines 73-88): query the engine
(through the cache when with_cache is set), build the message dict (which
calls format_sources and so may raise), display it, and append it to
st.session_state.messages. A raise propagates to the caller after the
cache/handler effects that already happened; the append and the display
only happen on success. -/
def generate_assistant_response (prompt : String) (engine : ChatEngine) (st : AppState) :
    Except String Unit × AppState :=
  let qr :=
    if st.session.with_cache then
      query_chatengine_cache st.cache prompt engine st.handler
    else
      match query_chatengine prompt engine st.handler with
      | (res, t1) => (res, st.cache, t1)
  match qr with
  | (Except.error e, cache1, t1) =>
      (Except.error e, { st with cache := cache1, handler := t1 })
  | (Except.ok r, cache1, t1) =>
      match format_sources r with
      | Except.error e =>
          (Except.error e, { st with cache := cache1, handler := t1 })
      | Except.ok srcs =>
          (Except.ok (),
           { st with
              session :=
                { st.session with
                    messages := st.session.messages ++
                      [{ role := "assistant", content := r.response, sources := some srcs }] },
              cache := cache1,
              handler := t1 })

/- The response-generation block of app.py layout (lines 221-228): the try
suite runs generate_assistant_response then update_token_counters; an
exception is caught and its message displayed via st.error (returned here as
the second component). -/
def layout_generate (prompt : String) (engine : ChatEngine) (st : AppState) :
    AppState × Option String :=
  match generate_assistant_response prompt engine st with
  | (Except.error e, st1) => (st1, some e)
  | (Except.ok _, st1) =>
      match update_token_counters st1.session st1.handler with
      | (session2, t2) => ({ st1 with session := session2, handler := t2 }, none)

end App

/-
Concrete inputs used by the witness theorems below: a one-node-per-document
chunker, a failing and a succeeding index builder, an engine that always
fails and one that always answers, and small concrete states.
-/

def wChunker : Ingest.SimpleNodeParser → Ingest.Doc → List Ingest.Node :=
  fun _ d => [{ text := d.text, metadata := d.metadata }]

def wDocs : List Ingest.Doc :=
  Ingest.load_data [{ file_name := "docs/index.md", text := "alpha" }]

def wIndex0 : Ingest.VectorStoreIndex :=
  { nodes := [] }

def wFailBuild : List Ingest.Node → Except String Ingest.VectorStoreIndex :=
  fun _ => Except.error ("embedding call failed")

def wOkBuild : List Ingest.Node → Except String Ingest.VectorStoreIndex :=
  fun nodes => Except.ok { nodes := nodes }

def wFetch : Except String (List Ingest.RawDoc) :=
  Except.ok [{ file_name := "docs/index.md", text := "alpha" }]

def wNodes : List Ingest.Node :=
  (Ingest.SimpleNodeParser.from_defaults 1024 32).get_nodes_from_documents wChunker wDocs

def c4raw : Ingest.RawDoc :=
  { file_name := "docs\\getting_started\\installation.md", text := "install docs" }

def c3response : App.Response :=
  { response := "answer", source_nodes :=
      [{ metadata := some { filename := none, author := some ("LlamaIndex") },
         score := Rat.divInt 1 2 }] }

def c3wfResponse : App.Response :=
  { response := "answer", source_nodes :=
      [{ metadata := none, score := Rat.divInt 9 10 },
       { metadata := some { filename := some ("docs\\a.md"), author := none },
         score := Rat.divInt 1 2 }] }

def c7response : App.Response :=
  { response := "answer", source_nodes :=
      [{ metadata := some { filename := some ("docs\\core\\query.md"), author := some ("LlamaIndex") },
         score := Rat.divInt 847 1000 }] }

def wErrEngine : App.ChatEngine :=
  { chat := fun _ => Except.error ("APIConnectionError: connection refused"),
    prompt_cost := fun _ => 12,
    completion_cost := fun _ => 0 }

def wSession : App.SessionState :=
  { llm_prompt_tokens := 7,
    llm_completion_tokens := 5,
    messages := [App.greeting],
    btn_llama_index := false,
    btn_retriever := false,
    btn_diff := false,
    btn_rag := false,
    with_cache := false,
    with_sources := true,
    openai_api_key := some ("sk-unit") }

def wAppState : App.AppState :=
  { session := wSession,
    handler := { prompt_llm_token_count := 0, completion_llm_token_count := 0 },
    cache := [] }

def wOkEngine : App.ChatEngine :=
  { chat := fun _ => Except.ok { response := "A node is a chunk of a document.", source_nodes := [] },
    prompt_cost := fun _ => 11,
    completion_cost := fun _ => 6 }

def wCacheState : App.AppState :=
  { session :=
      { llm_prompt_tokens := 7,
        llm_completion_tokens := 5,
        messages := [App.greeting],
        btn_llama_index := false,
        btn_retriever := false,
        btn_diff := false,
        btn_rag := false,
        with_cache := true,
        with_sources := true,
        openai_api_key := some ("sk-unit") },
    handler := { prompt_llm_token_count := 0, completion_llm_token_count := 0 },
    cache := [] }

theorem round1000_spec (q : ℚ) : round1000 q = round (q * 1000) := by
  rw [round_eq, round1000]
  have hd : (0 : ℤ) ≤ (q.den : ℤ) * 2 := by positivity
  rw [Int.fdiv_eq_ediv _ hd]
  have hden : ((q.den : ℚ)) ≠ 0 := by
    exact_mod_cast q.den_pos.ne'
  have hden2 : (((q.den * 2 : ℕ)) : ℚ) ≠ 0 := by
    push_cast
    positivity
  have hq : (q.num : ℚ) = q * (q.den : ℚ) := (div_eq_iff hden).mp (Rat.num_div_den q)
  have hkey : q * 1000 + 1 / 2 =
      (((q.num * 2000 + (q.den : ℤ)) : ℤ) : ℚ) / (((q.den * 2 : ℕ)) : ℚ) := by
    rw [eq_div_iff hden2]
    push_cast
    rw [hq]
    ring
  rw [hkey, Rat.floor_intCast_div_natCast]
  push_cast
  ring_nf

theorem layout_hit_ok (st : App.AppState) (prompt : String) (engine : App.ChatEngine)
    (r : App.Response) (srcs : String)
    (hc : st.session.with_cache = true)
    (hl : App.cacheLookup st.cache prompt = some r)
    (hf : App.format_sources r = Except.ok srcs) :
    App.layout_generate prompt engine st =
      ({ session :=
           { st.session with
               llm_prompt_tokens :=
                 st.session.llm_prompt_tokens + st.handler.prompt_llm_token_count,
               llm_completion_tokens :=
                 st.session.llm_completion_tokens + st.handler.completion_llm_token_count,
               messages := st.session.messages ++
                 [{ role := "assistant", content := r.response, sources := some srcs }] },
         handler := { prompt_llm_token_count := 0, completion_llm_token_count := 0 },
         cache := st.cache }, none) := by
  simp [App.layout_generate, App.generate_assistant_response, App.query_chatengine_cache,
    hc, hl, hf, App.update_token_counters, App.TokenCountingHandler.reset_counts]

theorem layout_hit_fmt_err (st : App.AppState) (prompt : String) (engine : App.ChatEngine)
    (r : App.Response) (e : String)
    (hc : st.session.with_cache = true)
    (hl : App.cacheLookup st.cache prompt = some r)
    (hf : App.format_sources r = Except.error e) :
    App.layout_generate prompt engine st = (st, some e) := by
  simp [App.layout_generate, App.generate_assistant_response, App.query_chatengine_cache,
    hc, hl, hf]

theorem layout_miss_chat_err (st : App.AppState) (prompt : String) (engine : App.ChatEngine)
    (e : String)
    (hc : st.session.with_cache = true)
    (hl : App.cacheLookup st.cache prompt = none)
    (he : engine.chat prompt = Except.error e) :
    App.layout_generate prompt engine st = (st, some e) := by
  simp [App.layout_generate, App.generate_assistant_response, App.query_chatengine_cache,
    App.chat_call, hc, hl, he]

theorem layout_miss_fmt_err (st : App.AppState) (prompt : String) (engine : App.ChatEngine)
    (r : App.Response) (e : String)
    (hc : st.session.with_cache = true)
    (hl : App.cacheLookup st.cache prompt = none)
    (he : engine.chat prompt = Except.ok r)
    (hf : App.format_sources r = Except.error e) :
    App.layout_generate prompt engine st =
      ({ session := st.session,
         handler :=
           { prompt_llm_token_count :=
               st.handler.prompt_llm_token_count + engine.prompt_cost prompt,
             completion_llm_token_count :=
               st.handler.completion_llm_token_count + engine.completion_cost prompt },
         cache := (prompt, r) :: st.cache }, some e) := by
  simp [App.layout_generate, App.generate_assistant_response, App.query_chatengine_cache,
    App.chat_call, hc, hl, he, hf]

theorem layout_miss_ok (st : App.AppState) (prompt : String) (engine : App.ChatEngine)
    (r : App.Response) (srcs : String)
    (hc : st.session.with_cache = true)
    (hl : App.cacheLookup st.cache prompt = none)
    (he : engine.chat prompt = Except.ok r)
    (hf : App.format_sources r = Except.ok srcs) :
    App.layout_generate prompt engine st =
      ({ session :=
           { st.session with
               llm_prompt_tokens := st.session.llm_prompt_tokens +
                 (st.handler.prompt_llm_token_count + engine.prompt_cost prompt),
               llm_completion_tokens := st.session.llm_completion_tokens +
                 (st.handler.completion_llm_token_count + engine.completion_cost prompt),
               messages := st.session.messages ++
                 [{ role := "assistant", content := r.response, sources := some srcs }] },
         handler := { prompt_llm_token_count := 0, completion_llm_token_count := 0 },
         cache := (prompt, r) :: st.cache }, none) := by
  simp [App.layout_generate, App.generate_assistant_response, App.query_chatengine_cache,
    App.chat_call, hc, hl, he, hf, App.update_token_counters,
    App.TokenCountingHandler.reset_counts]

theorem layout_nocache_chat_err (st : App.AppState) (prompt : String) (engine : App.ChatEngine)
    (e : String)
    (hc : st.session.with_cache = false)
    (he : engine.chat prompt = Except.error e) :
    App.layout_generate prompt engine st = (st, some e) := by
  simp [App.layout_generate, App.generate_assistant_response, App.query_chatengine,
    App.chat_call, hc, he]

/-- Claim C1: if the embedding/indexing step of index_data raises, the persist step
never runs and the persistence path keeps its prior content; the index is
persisted exactly when all nodes were indexed successfully. -/
theorem C1_fail_fast_ingestion
    (chunker : Ingest.SimpleNodeParser → Ingest.Doc → List Ingest.Node)
    (buildIndex : List Ingest.Node → Except String Ingest.VectorStoreIndex)
    (docs : List Ingest.Doc) (storage : Option Ingest.VectorStoreIndex) :
    (∀ e, buildIndex ((Ingest.SimpleNodeParser.from_defaults 1024 32).get_nodes_from_documents
        chunker docs) = Except.error e →
      (Ingest.index_data chunker buildIndex docs storage).result = Except.error e ∧
      (Ingest.index_data chunker buildIndex docs storage).storage = storage) ∧
    (∀ index, buildIndex ((Ingest.SimpleNodeParser.from_defaults 1024 32).get_nodes_from_documents
        chunker docs) = Except.ok index →
      (Ingest.index_data chunker buildIndex docs storage).result = Except.ok index ∧
      (Ingest.index_data chunker buildIndex docs storage).storage = some index) := by
  constructor
  · intro e he
    simp [Ingest.index_data, he]
  · intro index hi
    simp [Ingest.index_data, hi]

/-- Claim C1 witness: a failing embedding leaves an existing persisted index
untouched, and a successful one persists the built index. -/
theorem C1_fail_fast_ingestion_witness :
    ((Ingest.index_data wChunker wFailBuild wDocs (some wIndex0)).result =
        Except.error ("embedding call failed") ∧
      (Ingest.index_data wChunker wFailBuild wDocs (some wIndex0)).storage = some wIndex0) ∧
    ((Ingest.index_data wChunker wOkBuild wDocs none).result =
        Except.ok { nodes := wNodes } ∧
      (Ingest.index_data wChunker wOkBuild wDocs none).storage =
        some { nodes := wNodes }) :=
  ⟨(C1_fail_fast_ingestion wChunker wFailBuild wDocs (some wIndex0)).1 _ rfl,
   (C1_fail_fast_ingestion wChunker wOkBuild wDocs none).2 _ rfl⟩

/-- Claim C8: index_data invokes the chunker through a parser configured with
chunk_size 1024 and chunk_overlap 32, once per document of the batch, for
every document. -/
theorem C8_chunker_configuration
    (chunker : Ingest.SimpleNodeParser → Ingest.Doc → List Ingest.Node)
    (buildIndex : List Ingest.Node → Except String Ingest.VectorStoreIndex)
    (docs : List Ingest.Doc) (storage : Option Ingest.VectorStoreIndex) :
    (Ingest.index_data chunker buildIndex docs storage).chunk_calls =
      docs.map (fun d => { cfg := { chunk_size := 1024, chunk_overlap := 32 }, doc := d }) :=
  rfl

/-- Claim C4 counterexample: load_data stores the collaborator-reported file path
verbatim; for a path containing backslashes the stored filename differs from
its separator-normalized form, so the tagging step does not normalize. -/
theorem C4_counterexample :
    ¬ ((Ingest.load_data [c4raw]).map (fun d => d.metadata.filename) =
        [some (normalizeSep c4raw.file_name)]) := by
  decide

/-- Claim C4 (amended): load_data assigns metadata.filename verbatim from the
collaborator-reported file path and metadata.author the fixed label
LlamaIndex; backslash-to-slash normalization happens later, in get_metadata,
when sources are formatted for display. -/
theorem C4_document_tagging (docs : List Ingest.RawDoc) :
    ((Ingest.load_data docs).map (fun d => d.metadata.filename) =
        docs.map (fun d => some d.file_name) ∧
      (Ingest.load_data docs).map (fun d => d.metadata.author) =
        docs.map (fun _ => some ("LlamaIndex"))) ∧
    (∀ fn a q,
      App.get_metadata
          { response := "", source_nodes :=
              [{ metadata := some { filename := some fn, author := a }, score := q }] } =
        Except.ok [{ filename := normalizeSep fn, author := a, score := round3 q }]) := by
  refine ⟨⟨?_, ?_⟩, ?_⟩
  · simp [Ingest.load_data, Function.comp_def]
  · simp [Ingest.load_data, Function.comp_def]
  · intro fn a q
    rfl

/-- Claim C9: clear_chat_history resets the messages to the single assistant
greeting and re-enables the four preset-question buttons (their disabled
flags become false), while the two token counters and every other session
field keep their prior values. -/
theorem C9_clear_history_frame (s : App.SessionState) :
    (App.clear_chat_history s).messages = [App.greeting] ∧
    App.greeting.role = "assistant" ∧
    (App.clear_chat_history s).btn_llama_index = false ∧
    (App.clear_chat_history s).btn_retriever = false ∧
    (App.clear_chat_history s).btn_diff = false ∧
    (App.clear_chat_history s).btn_rag = false ∧
    (App.clear_chat_history s).llm_prompt_tokens = s.llm_prompt_tokens ∧
    (App.clear_chat_history s).llm_completion_tokens = s.llm_completion_tokens ∧
    (App.clear_chat_history s).with_cache = s.with_cache ∧
    (App.clear_chat_history s).with_sources = s.with_sources ∧
    (App.clear_chat_history s).openai_api_key = s.openai_api_key :=
  ⟨rfl, rfl, rfl, rfl, rfl, rfl, rfl, rfl, rfl, rfl, rfl⟩

/-- Claim C6: load_environment_vars raises exactly when OPENAI_API_KEY or
GITHUB_TOKEN is unset or empty; when both are set it returns exactly those
two values unchanged; and when it raises, the script entry point performs no
remote fetch. -/
theorem C6_load_environment_vars (env : Ingest.Env) :
    ((∃ e, Ingest.load_environment_vars env = Except.error e) ↔
      (Ingest.falsy env.openai_api_key = true ∨ Ingest.falsy env.github_token = true)) ∧
    (∀ a g, env.openai_api_key = some a → env.github_token = some g →
      a.isEmpty = false → g.isEmpty = false →
      Ingest.load_environment_vars env =
        Except.ok { OPENAI_API_KEY := a, GITHUB_TOKEN := g }) ∧
    (∀ fetch chunker buildIndex storage e,
      Ingest.load_environment_vars env = Except.error e →
      (Ingest.ingest_main env fetch chunker buildIndex storage).remote_calls = 0 ∧
      (Ingest.ingest_main env fetch chunker buildIndex storage).outcome = Except.error e ∧
      (Ingest.ingest_main env fetch chunker buildIndex storage).storage = storage) := by
  refine ⟨?_, ?_, ?_⟩
  · by_cases h1 : Ingest.falsy env.openai_api_key = true <;>
      by_cases h2 : Ingest.falsy env.github_token = true <;>
        simp [Ingest.load_environment_vars, h1, h2]
  · intro a g ha hg hae hge
    have h1 : Ingest.falsy env.openai_api_key = false := by
      rw [ha]
      simpa [Ingest.falsy] using hae
    have h2 : Ingest.falsy env.github_token = false := by
      rw [hg]
      simpa [Ingest.falsy] using hge
    simp [Ingest.load_environment_vars, ha, hg, Ingest.falsy, hae, hge]
  · intro fetch chunker buildIndex storage e he
    simp [Ingest.ingest_main, he]

/-- Claim C6 witness: with both variables set the mapping of both values is
returned, and with a missing key the entry point makes zero remote calls. -/
theorem C6_load_environment_vars_witness :
    Ingest.load_environment_vars { openai_api_key := some ("sk-unit"), github_token := some ("ghp-unit") } =
      Except.ok { OPENAI_API_KEY := "sk-unit", GITHUB_TOKEN := "ghp-unit" } ∧
    (Ingest.ingest_main { openai_api_key := none, github_token := some ("ghp-unit") }
        wFetch wChunker wOkBuild none).remote_calls = 0 :=
  ⟨(C6_load_environment_vars _).2.1 _ _ rfl rfl rfl rfl,
   ((C6_load_environment_vars { openai_api_key := none, github_token := some ("ghp-unit") }).2.2
      wFetch wChunker wOkBuild none ("OPENAI_API_KEY environment variable not set.") rfl).1⟩

theorem get_metadata_loop_total (items : List App.SourceNode)
    (h : ∀ item ∈ items, ∀ md, item.metadata = some md → md.filename ≠ none) :
    ∃ entries, App.get_metadata_loop items = Except.ok entries ∧
      entries.length = (items.filter (fun item => item.metadata.isSome)).length := by
  induction items with
  | nil => exact ⟨[], rfl, rfl⟩
  | cons item rest ih =>
    obtain ⟨tl, htl, hlen⟩ := ih (fun it hit => h it (List.mem_cons_of_mem _ hit))
    cases hm : item.metadata with
    | none =>
      refine ⟨tl, ?_, ?_⟩
      · simp [App.get_metadata_loop, hm, htl]
      · simp [hm, hlen, List.filter]
    | some md =>
      cases hf : md.filename with
      | none => exact absurd hf (h item (List.mem_cons_self item rest) md hm)
      | some fn =>
        refine ⟨{ filename := normalizeSep fn, author := md.author, score := round3 item.score } :: tl, ?_, ?_⟩
        · simp [App.get_metadata_loop, hm, hf, htl, Except.map]
        · simp [hm, hlen, List.filter]

/-- Claim C3 counterexample: a source node whose metadata lacks the filename key is
not skipped defensively: get_metadata calls replace on None and raises an
AttributeError, so source formatting fails instead of completing. -/
theorem C3_counterexample :
    App.format_sources c3response =
      Except.error ("AttributeError: \x27NoneType\x27 object has no attribute \x27replace\x27") :=
  rfl

/-- Claim C3 (amended): an item without a metadata attribute is skipped and a
missing author is tolerated (stored as the value None), so formatting
completes without raising whenever every metadata-bearing source node has a
filename; a missing filename, however, raises. -/
theorem C3_malformed_metadata (r : App.Response)
    (h : ∀ item ∈ r.source_nodes, ∀ md, item.metadata = some md → md.filename ≠ none) :
    ∃ entries, App.get_metadata r = Except.ok entries ∧
      App.format_sources r =
        Except.ok (String.intercalate ("\n") (entries.map App.sourceLine)) ∧
      entries.length = (r.source_nodes.filter (fun item => item.metadata.isSome)).length := by
  obtain ⟨entries, he, hlen⟩ := get_metadata_loop_total r.source_nodes h
  exact ⟨entries, he, by simp [App.format_sources, App.get_metadata, he, Except.map], hlen⟩

/-- Claim C3 witness: a response with one metadata-less node (skipped) and one node
with a filename but no author formats without raising. -/
theorem C3_malformed_metadata_witness :
    ∃ entries, App.get_metadata c3wfResponse = Except.ok entries ∧
      App.format_sources c3wfResponse =
        Except.ok (String.intercalate ("\n") (entries.map App.sourceLine)) ∧
      entries.length =
        (c3wfResponse.source_nodes.filter (fun item => item.metadata.isSome)).length :=
  C3_malformed_metadata c3wfResponse (by
    intro item hit md hmd hnone
    simp [c3wfResponse] at hit
    rcases hit with h | h <;> subst h
    · exact Option.noConfusion hmd
    · cases Option.some.inj hmd
      exact Option.noConfusion hnone)

theorem get_metadata_loop_wellformed (ms : List (String × String × ℚ))
    (items : List App.SourceNode)
    (h : items.map (fun item => (item.metadata, item.score)) =
         ms.map (fun m =>
           (some { filename := some m.1, author := some m.2.1 : Ingest.Metadata }, m.2.2))) :
    App.get_metadata_loop items =
      Except.ok (ms.map (fun m =>
        { filename := normalizeSep m.1, author := some m.2.1, score := round3 m.2.2 })) := by
  induction ms generalizing items with
  | nil =>
    cases items with
    | nil => rfl
    | cons a tl => simp at h
  | cons m mtl ih =>
    cases items with
    | nil => simp at h
    | cons item itl =>
      simp only [List.map_cons, List.cons.injEq, Prod.mk.injEq] at h
      obtain ⟨⟨hmd, hsc⟩, htl⟩ := h
      simp [App.get_metadata_loop, hmd, ih itl htl, hsc, Except.map]

/-- Claim C7: for a response whose source nodes all carry metadata with a filename
and an author, format_sources returns, without raising, one citation line
per source node, built from the link base concatenated with the normalized
filename, the author, and the similarity score rounded to three decimals;
being a plain function of the response value it is pure and deterministic. -/
theorem C7_response_formatting (r : App.Response) (ms : List (String × String × ℚ))
    (h : r.source_nodes.map (fun item => (item.metadata, item.score)) =
         ms.map (fun m =>
           (some { filename := some m.1, author := some m.2.1 : Ingest.Metadata }, m.2.2))) :
    App.format_sources r =
      Except.ok (String.intercalate ("\n") (ms.map (fun m =>
        "- " ++ App.base ++ normalizeSep m.1 ++ " (author: \x27" ++ m.2.1 ++
          "\x27; score: " ++ scoreToString (round3 m.2.2) ++ ")\n"))) := by
  have hloop := get_metadata_loop_wellformed ms r.source_nodes h
  simp [App.format_sources, App.get_metadata, hloop, App.sourceLine, authorStr,
    List.map_map, Function.comp_def, Except.map]

/-- Claim C7 witness: one well-formed source yields exactly one properly built
citation line. -/
theorem C7_response_formatting_witness :
    App.format_sources c7response =
      Except.ok (String.intercalate ("\n")
        ([(("docs\\core\\query.md"), ("LlamaIndex"), (Rat.divInt 847 1000))].map (fun m =>
          "- " ++ App.base ++ normalizeSep m.1 ++ " (author: \x27" ++ m.2.1 ++
            "\x27; score: " ++ scoreToString (round3 m.2.2) ++ ")\n"))) :=
  C7_response_formatting c7response
    [(("docs\\core\\query.md"), ("LlamaIndex"), (Rat.divInt 847 1000))] rfl

theorem generate_counters (prompt : String) (engine : App.ChatEngine) (st : App.AppState) :
    (App.generate_assistant_response prompt engine st).2.session.llm_prompt_tokens =
      st.session.llm_prompt_tokens ∧
    (App.generate_assistant_response prompt engine st).2.session.llm_completion_tokens =
      st.session.llm_completion_tokens := by
  rcases hc : st.session.with_cache with _ | _
  · rcases he : engine.chat prompt with e | r
    · simp [App.generate_assistant_response, App.query_chatengine, App.chat_call, hc, he]
    · rcases hf : App.format_sources r with e | srcs <;>
        simp [App.generate_assistant_response, App.query_chatengine, App.chat_call, hc, he, hf]
  · rcases hl : App.cacheLookup st.cache prompt with _ | r
    · rcases he : engine.chat prompt with e | r
      · simp [App.generate_assistant_response, App.query_chatengine_cache, App.chat_call,
          hc, hl, he]
      · rcases hf : App.format_sources r with e | srcs <;>
          simp [App.generate_assistant_response, App.query_chatengine_cache, App.chat_call,
            hc, hl, he, hf]
    · rcases hf : App.format_sources r with e | srcs <;>
        simp [App.generate_assistant_response, App.query_chatengine_cache, hc, hl, hf]

/-- Claim C10: token counters never decrease: update_token_counters only adds the
handler counts to the session totals, clear_chat_history leaves both
counters unchanged, and a whole query step (with or without cache, on
success or failure) never decreases either counter. -/
theorem C10_token_counters_monotone (s : App.SessionState) (t : App.TokenCountingHandler)
    (prompt : String) (engine : App.ChatEngine) (st : App.AppState) :
    s.llm_prompt_tokens ≤ (App.update_token_counters s t).1.llm_prompt_tokens ∧
    s.llm_completion_tokens ≤ (App.update_token_counters s t).1.llm_completion_tokens ∧
    (App.clear_chat_history s).llm_prompt_tokens = s.llm_prompt_tokens ∧
    (App.clear_chat_history s).llm_completion_tokens = s.llm_completion_tokens ∧
    st.session.llm_prompt_tokens ≤
      (App.layout_generate prompt engine st).1.session.llm_prompt_tokens ∧
    st.session.llm_completion_tokens ≤
      (App.layout_generate prompt engine st).1.session.llm_completion_tokens := by
  refine ⟨Nat.le_add_right _ _, Nat.le_add_right _ _, rfl, rfl, ?_, ?_⟩
  · unfold App.layout_generate
    rcases hr : App.generate_assistant_response prompt engine st with ⟨res, st1⟩
    have h1 : st1.session.llm_prompt_tokens = st.session.llm_prompt_tokens := by
      have h := (generate_counters prompt engine st).1
      rwa [hr] at h
    cases res with
    | error e => exact le_of_eq h1.symm
    | ok u =>
      simp only [App.update_token_counters]
      rw [← h1]
      exact Nat.le_add_right _ _
  · unfold App.layout_generate
    rcases hr : App.generate_assistant_response prompt engine st with ⟨res, st1⟩
    have h1 : st1.session.llm_completion_tokens = st.session.llm_completion_tokens := by
      have h := (generate_counters prompt engine st).2
      rwa [hr] at h
    cases res with
    | error e => exact le_of_eq h1.symm
    | ok u =>
      simp only [App.update_token_counters]
      rw [← h1]
      exact Nat.le_add_right _ _

/-- Claim C5: when the chat-engine call of the query flow raises (the engine being
actually invoked: caching off, or the prompt absent from the cache), the
layout try/except displays the exception message and the session state is
completely unchanged: no assistant message is appended and both token
counters keep their prior values. -/
theorem C5_query_error_atomicity (st : App.AppState) (prompt : String)
    (engine : App.ChatEngine) (e : String)
    (herr : engine.chat prompt = Except.error e)
    (hmiss : st.session.with_cache = false ∨ App.cacheLookup st.cache prompt = none) :
    (App.layout_generate prompt engine st).2 = some e ∧
    (App.layout_generate prompt engine st).1.session = st.session := by
  rcases hc : st.session.with_cache with _ | _
  · rw [layout_nocache_chat_err st prompt engine e hc herr]
    exact ⟨rfl, rfl⟩
  · rcases hmiss with hf | hl
    · rw [hc] at hf
      cases hf
    · rw [layout_miss_chat_err st prompt engine e hc hl herr]
      exact ⟨rfl, rfl⟩

/-- Claim C5 witness: a failing engine call with caching off reports the message
and leaves the session untouched. -/
theorem C5_query_error_atomicity_witness :
    (App.layout_generate ("what is a node?") wErrEngine wAppState).2 =
      some ("APIConnectionError: connection refused") ∧
    (App.layout_generate ("what is a node?") wErrEngine wAppState).1.session =
      wAppState.session :=
  C5_query_error_atomicity wAppState ("what is a node?") wErrEngine
    ("APIConnectionError: connection refused") rfl (Or.inl rfl)

/-- Claim C2: with caching enabled, running the query step twice with the same
prompt against the same engine and an initially successful run appends the
identical assistant message both times, and the second run leaves both token
counters exactly where the first run left them. -/
theorem C2_idempotent_caching (st0 : App.AppState) (prompt : String) (engine : App.ChatEngine)
    (hc : st0.session.with_cache = true)
    (h1 : (App.layout_generate prompt engine st0).2 = none) :
    ∃ m : App.Message,
      (App.layout_generate prompt engine st0).1.session.messages =
        st0.session.messages ++ [m] ∧
      (App.layout_generate prompt engine
          (App.layout_generate prompt engine st0).1).1.session.messages =
        st0.session.messages ++ [m, m] ∧
      (App.layout_generate prompt engine
          (App.layout_generate prompt engine st0).1).1.session.llm_prompt_tokens =
        (App.layout_generate prompt engine st0).1.session.llm_prompt_tokens ∧
      (App.layout_generate prompt engine
          (App.layout_generate prompt engine st0).1).1.session.llm_completion_tokens =
        (App.layout_generate prompt engine st0).1.session.llm_completion_tokens := by
  cases hl : App.cacheLookup st0.cache prompt with
  | some r =>
    cases hf : App.format_sources r with
    | error e =>
      rw [layout_hit_fmt_err st0 prompt engine r e hc hl hf] at h1
      simp at h1
    | ok srcs =>
      have e1 := layout_hit_ok st0 prompt engine r srcs hc hl hf
      have hc1 : (App.layout_generate prompt engine st0).1.session.with_cache = true := by
        rw [e1]
        exact hc
      have hl1 : App.cacheLookup (App.layout_generate prompt engine st0).1.cache prompt =
          some r := by
        rw [e1]
        exact hl
      have e2 := layout_hit_ok (App.layout_generate prompt engine st0).1 prompt engine r srcs
        hc1 hl1 hf
      refine ⟨{ role := "assistant", content := r.response, sources := some srcs },
        ?_, ?_, ?_, ?_⟩
      · rw [e1]
      · rw [e2, e1]
        simp
      · rw [e2, e1]
        simp
      · rw [e2, e1]
        simp
  | none =>
    cases he : engine.chat prompt with
    | error e =>
      rw [layout_miss_chat_err st0 prompt engine e hc hl he] at h1
      simp at h1
    | ok r =>
      cases hf : App.format_sources r with
      | error e =>
        rw [layout_miss_fmt_err st0 prompt engine r e hc hl he hf] at h1
        simp at h1
      | ok srcs =>
        have e1 := layout_miss_ok st0 prompt engine r srcs hc hl he hf
        have hlcons : App.cacheLookup ((prompt, r) :: st0.cache) prompt = some r := by
          simp [App.cacheLookup]
        have hc1 : (App.layout_generate prompt engine st0).1.session.with_cache = true := by
          rw [e1]
          exact hc
        have hl1 : App.cacheLookup (App.layout_generate prompt engine st0).1.cache prompt =
            some r := by
          rw [e1]
          exact hlcons
        have e2 := layout_hit_ok (App.layout_generate prompt engine st0).1 prompt engine r srcs
          hc1 hl1 hf
        refine ⟨{ role := "assistant", content := r.response, sources := some srcs },
          ?_, ?_, ?_, ?_⟩
        · rw [e1]
        · rw [e2, e1]
          simp
        · rw [e2, e1]
          simp
        · rw [e2, e1]
          simp

/-- Claim C2 witness: a concrete double run of the cached query path with the same
prompt. -/
theorem C2_idempotent_caching_witness :
    ∃ m : App.Message,
      (App.layout_generate ("what is a node?") wOkEngine wCacheState).1.session.messages =
        wCacheState.session.messages ++ [m] ∧
      (App.layout_generate ("what is a node?") wOkEngine
          (App.layout_generate ("what is a node?") wOkEngine wCacheState).1).1.session.messages =
        wCacheState.session.messages ++ [m, m] ∧
      (App.layout_generate ("what is a node?") wOkEngine
          (App.layout_generate ("what is a node?") wOkEngine
            wCacheState).1).1.session.llm_prompt_tokens =
        (App.layout_generate ("what is a node?") wOkEngine wCacheState).1.session.llm_prompt_tokens ∧
      (App.layout_generate ("what is a node?") wOkEngine
          (App.layout_generate ("what is a node?") wOkEngine
            wCacheState).1).1.session.llm_completion_tokens =
        (App.layout_generate ("what is a node?") wOkEngine
          wCacheState).1.session.llm_completion_tokens :=
  C2_idempotent_caching wCacheState ("what is a node?") wOkEngine rfl rfl
